import Mathlib

/-!
Verification of the samsung-cli control tool (src/samsung-cli.cpp) against its
natural-language specification.  The C++ program is shallowly embedded: the
filesystem the tool probes, reads and writes is explicit state, every handler
becomes a state-passing Lean function, and the standard-library pieces the code
relies on (std::stoi, std::string::find, std::getline) are modelled faithfully.
-/

set_option maxRecDepth 4096

/-! ## Filesystem model

A file either exists with some textual contents (in which case opening it for
reading succeeds) or it does not (open fails).  Writability models the
access(path, W_OK) pre-check; the subsequent ofstream open is modelled as
succeeding whenever that pre-check passes, since the code treats the race
between the two as a generic failure that no claim distinguishes. -/

/-- State of the filesystem the tool reads and writes: contents by path, and
write-permission by path. -/
structure FS where
  files : String → Option String
  writable : String → Bool

/-- Process state threaded through every handler: the filesystem plus the
stdout lines printed so far (stderr messages are not modelled). -/
structure St where
  fs : FS
  out : List String

/-- Append one stdout line. -/
def emit (s : String) (st : St) : St :=
  { st with out := st.out ++ [s] }

/-! ## Modelled C++ standard-library pieces -/

/-- Model of std::getline applied once to the whole file contents: everything
up to (excluding) the first newline character. -/
def firstLine (s : String) : String :=
  ⟨s.data.takeWhile (fun c => c != '\n')⟩

/-- Whitespace characters skipped by std::stoi (isspace in the C locale):
space, tab, newline, vertical tab (0x0b), form feed (0x0c), carriage return. -/
def isSpaceChar (c : Char) : Bool :=
  c == ' ' || c == '\t' || c == '\n' || c == Char.ofNat 11 || c == Char.ofNat 12 || c == '\r'

/-- Optional sign consumed by std::stoi: the sign factor and the rest. -/
def splitSign : List Char → Int × List Char
  | '+' :: r => (1, r)
  | '-' :: r => (-1, r)
  | r => (1, r)

/-- Maximal run of decimal digits at the front of the list. -/
def takeDigits (l : List Char) : List Char :=
  l.takeWhile (fun c => c.isDigit)

/-- Value of a digit run, most significant first. -/
def digitsToNat (l : List Char) : Nat :=
  l.foldl (fun acc c => acc * 10 + (c.toNat - 48)) 0

/-- Model of std::stoi (base 10): skip leading whitespace, consume an optional
sign and then a maximal nonempty digit run, ignoring any trailing characters.
Returns none exactly when the C++ call throws: no digit consumed
(std::invalid_argument) or value outside the int range (std::out_of_range). -/
def stoi (s : String) : Option Int :=
  let afterSpace := s.data.dropWhile isSpaceChar
  let signAndRest := splitSign afterSpace
  let ds := takeDigits signAndRest.2
  if ds = [] then none
  else
    let n : Int := signAndRest.1 * (digitsToNat ds : Int)
    if n < -2147483648 ∨ n > 2147483647 then none else some n

/-- Does pat occur at the very front of the list? (one comparison step of
std::string::find). -/
def matchesAt : List Char → List Char → Bool
  | [], _ => true
  | _ :: _, [] => false
  | p :: ps, h :: hs => p == h && matchesAt ps hs

/-- Does pat occur somewhere in the list? -/
def occursIn (pat : List Char) : List Char → Bool
  | [] => pat.isEmpty
  | h :: hs => matchesAt pat (h :: hs) || occursIn pat hs

/-- Model of hay.find(pat) != std::string::npos. -/
def string_find_some (hay pat : String) : Bool :=
  occursIn pat.data hay.data

/-! ## file_ops helpers (namespace file_ops in the source) -/

/-- file_ops::read_file: open the path (fails iff the file is absent), then
getline the first line.  The source ignores the getline result, so an empty
file yields success with the empty string. -/
def file_ops_read_file (path : String) (fs : FS) : Option String :=
  match fs.files path with
  | none => none
  | some contents => some (firstLine contents)

/-- Replace the contents of one file (ofstream truncation semantics). -/
def fs_write (path v : String) (fs : FS) : FS :=
  { fs with files := fun p => if p = path then some v else fs.files p }

/-- file_ops::write_file: check_permissions(path, true) first, then open for
writing and store the exact text. -/
def file_ops_write_file (path v : String) (fs : FS) : Option FS :=
  if fs.writable path then some (fs_write path v fs) else none

/-! ## Feature path resolver (detect_feature_path) -/

/-- Filesystem view seen by the resolver: access(path, R_OK) success, and the
result of opendir on the platform-driver directory (none when opendir fails,
otherwise the entries in readdir order). -/
structure ProbeFS where
  readable : String → Bool
  platformDir : Option (List String)

def udev_path_of (feature_name : String) : String :=
  "/dev/samsung-galaxybook/" ++ feature_name

def platform_path_of (entry feature_name : String) : String :=
  "/sys/bus/platform/drivers/samsung-galaxybook/" ++ entry ++ "/" ++ feature_name

def acpi_fallback_of (feature_name : String) : String :=
  "/sys/bus/acpi/devices/SCAI:00/" ++ feature_name

/-- strncmp(d_name, "SAM", 3) == 0. -/
def sam_name_match (e : String) : Bool :=
  match e.data with
  | 'S' :: 'A' :: 'M' :: _ => true
  | _ => false

/-- The readdir loop of detect_feature_path: first entry whose name matches
"SAM" and whose nested attribute path is readable. -/
def scan_driver_dir (fs : ProbeFS) (feature_name : String) : List String → Option String
  | [] => none
  | entry :: rest =>
    if sam_name_match entry && fs.readable (platform_path_of entry feature_name)
    then some (platform_path_of entry feature_name)
    else scan_driver_dir fs feature_name rest

/-- detect_feature_path: udev path if readable, else the first qualifying
platform-driver entry, else the fixed ACPI fallback (never checked). -/
def detect_feature_path (fs : ProbeFS) (feature_name : String) : String :=
  if fs.readable (udev_path_of feature_name) then udev_path_of feature_name
  else
    match fs.platformDir with
    | none => acpi_fallback_of feature_name
    | some entries =>
      match scan_driver_dir fs feature_name entries with
      | some path => path
      | none => acpi_fallback_of feature_name

/-! ## Fixed paths (top of samsung-cli.cpp) -/

def POWER_PATH : String := "/sys/class/power_supply/BAT1/charge_control_end_threshold"

def FAN_PATH : String := "/sys/bus/acpi/devices/PNP0C0B:00/fan_speed_rpm"

def PLATFORM_PROFILE_PATH : String := "/sys/firmware/acpi/platform_profile"

def PLATFORM_PROFILE_CHOICES_PATH : String := "/sys/firmware/acpi/platform_profile_choices"

def KBD_BACKLIGHT_PATH : String := "/sys/class/leds/samsung-galaxybook::kbd_backlight/brightness"

/-! ## PowerCommand -/

def read_power (st : St) : Bool × St :=
  match file_ops_read_file POWER_PATH st.fs with
  | none => (false, st)
  | some value => (true, emit ("Current charge threshold: " ++ value ++ "%") st)

def set_power (value : String) (st : St) : Bool × St :=
  match stoi value with
  | none => (false, st)
  | some val =>
    if val < 0 ∨ val > 100 then (false, st)
    else
      match file_ops_write_file POWER_PATH (toString val) st.fs with
      | none => (false, st)
      | some fs2 =>
        (true, emit ("Set charge threshold to " ++ toString val ++ "%") { st with fs := fs2 })

def PowerCommand_get_help : String :=
  "  power read    Read the charge threshold\n  power set <value>  Set the charge threshold (0-100)"

def PowerCommand_execute (args : List String) (st : St) : Bool × St :=
  match args with
  | _ :: subcommand :: rest =>
    if subcommand = "read" then read_power st
    else if subcommand = "set" then
      match rest with
      | [] => (false, st)
      | v :: _ => set_power v st
    else (false, st)
  | _ => (false, st)

/-! ## FanCommand -/

def read_fan (st : St) : Bool × St :=
  match file_ops_read_file FAN_PATH st.fs with
  | none => (false, st)
  | some value => (true, emit ("Current fan speed: " ++ value ++ " RPM") st)

def FanCommand_get_help : String :=
  "  fan read      Read current fan speed in RPM"

def FanCommand_execute (args : List String) (st : St) : Bool × St :=
  match args with
  | _ :: subcommand :: _ =>
    if subcommand = "read" then read_fan st else (false, st)
  | _ => (false, st)

/-! ## PerformanceCommand -/

def read_performance_mode (st : St) : Bool × St :=
  match file_ops_read_file PLATFORM_PROFILE_PATH st.fs with
  | none => (false, st)
  | some value => (true, emit ("Current performance mode: " ++ value) st)

def set_performance_mode (mode : String) (st : St) : Bool × St :=
  match file_ops_read_file PLATFORM_PROFILE_CHOICES_PATH st.fs with
  | none => (false, st)
  | some available_modes =>
    if string_find_some available_modes mode = false then (false, st)
    else
      match file_ops_write_file PLATFORM_PROFILE_PATH mode st.fs with
      | none => (false, st)
      | some fs2 => (true, emit ("Set performance mode to " ++ mode) { st with fs := fs2 })

def list_performance_modes (st : St) : Bool × St :=
  match file_ops_read_file PLATFORM_PROFILE_CHOICES_PATH st.fs with
  | none => (false, st)
  | some value => (true, emit ("Available performance modes: " ++ value) st)

def PerformanceCommand_get_help : String :=
  "  perf read     Read current performance mode\n  perf set <mode>  Set performance mode (low-power/balanced/performance)\n  perf list     List available performance modes"

def PerformanceCommand_execute (args : List String) (st : St) : Bool × St :=
  match args with
  | _ :: subcommand :: rest =>
    if subcommand = "read" then read_performance_mode st
    else if subcommand = "set" then
      match rest with
      | [] => (false, st)
      | m :: _ => set_performance_mode m st
    else if subcommand = "list" then list_performance_modes st
    else (false, st)
  | _ => (false, st)

/-! ## Boolean-token normalization, shared verbatim by the three handlers
RecordingCommand, StartOnLidOpenCommand and UsbChargeCommand (each repeats the
same if-chain inline). -/

def normalize_bool_token (value : String) : Option String :=
  if value == "0" || value == "off" || value == "false" || value == "no" then some "0"
  else if value == "1" || value == "on" || value == "true" || value == "yes" then some "1"
  else none

/-! ## RecordingCommand.  The control path is the global ALLOW_RECORDING_PATH,
resolved at startup by detect_feature_path; it is passed as a parameter. -/

def read_recording_status (path : String) (st : St) : Bool × St :=
  match file_ops_read_file path st.fs with
  | none => (false, st)
  | some value =>
    (true, emit ("Recording permission: " ++ (if value = "1" then "Enabled" else "Disabled")) st)

def set_recording_status (path value : String) (st : St) : Bool × St :=
  match normalize_bool_token value with
  | none => (false, st)
  | some normalized_value =>
    match file_ops_write_file path normalized_value st.fs with
    | none => (false, st)
    | some fs2 =>
      (true, emit ("Set recording permission to " ++
        (if normalized_value = "1" then "Enabled" else "Disabled")) { st with fs := fs2 })

def RecordingCommand_get_help : String :=
  "  record read   Read recording permission status\n  record set <value>  Set recording permission (0/1, on/off, true/false, yes/no)"

def RecordingCommand_execute (path : String) (args : List String) (st : St) : Bool × St :=
  match args with
  | _ :: subcommand :: rest =>
    if subcommand = "read" then read_recording_status path st
    else if subcommand = "set" then
      match rest with
      | [] => (false, st)
      | v :: _ => set_recording_status path v st
    else (false, st)
  | _ => (false, st)

/-! ## KeyboardCommand -/

def read_keyboard_backlight (st : St) : Bool × St :=
  match file_ops_read_file KBD_BACKLIGHT_PATH st.fs with
  | none => (false, st)
  | some value => (true, emit ("Keyboard backlight level: " ++ value) st)

def set_keyboard_backlight (value : String) (st : St) : Bool × St :=
  match stoi value with
  | none => (false, st)
  | some val =>
    if val < 0 ∨ val > 3 then (false, st)
    else
      match file_ops_write_file KBD_BACKLIGHT_PATH (toString val) st.fs with
      | none => (false, st)
      | some fs2 =>
        (true, emit ("Set keyboard backlight level to " ++ toString val) { st with fs := fs2 })

def KeyboardCommand_get_help : String :=
  "  kbd read      Read keyboard backlight level\n  kbd set <0-3> Set keyboard backlight level (0=off, 1-3=brightness)\n               Note: Backlight may be affected by ambient light sensor\n               and GNOME\x27s automatic backlight control"

def KeyboardCommand_execute (args : List String) (st : St) : Bool × St :=
  match args with
  | _ :: subcommand :: rest =>
    if subcommand = "read" then read_keyboard_backlight st
    else if subcommand = "set" then
      match rest with
      | [] => (false, st)
      | v :: _ => set_keyboard_backlight v st
    else (false, st)
  | _ => (false, st)

/-! ## StartOnLidOpenCommand (path = global START_ON_LID_OPEN_PATH) -/

def StartOnLidOpen_read_status (path : String) (st : St) : Bool × St :=
  match file_ops_read_file path st.fs with
  | none => (false, st)
  | some value =>
    (true, emit ("Start on lid open: " ++ (if value = "1" then "Enabled" else "Disabled")) st)

def StartOnLidOpen_set_status (path value : String) (st : St) : Bool × St :=
  match normalize_bool_token value with
  | none => (false, st)
  | some normalized_value =>
    match file_ops_write_file path normalized_value st.fs with
    | none => (false, st)
    | some fs2 =>
      (true, emit ("Set start on lid open to " ++
        (if normalized_value = "1" then "Enabled" else "Disabled")) { st with fs := fs2 })

def StartOnLidOpenCommand_get_help : String :=
  "  start-on-lid-open read   Read start on lid open status\n  start-on-lid-open set <value>  Set start on lid open (0/1, on/off, true/false, yes/no)"

def StartOnLidOpenCommand_execute (path : String) (args : List String) (st : St) : Bool × St :=
  match args with
  | _ :: subcommand :: rest =>
    if subcommand = "read" then StartOnLidOpen_read_status path st
    else if subcommand = "set" then
      match rest with
      | [] => (false, st)
      | v :: _ => StartOnLidOpen_set_status path v st
    else (false, st)
  | _ => (false, st)

/-! ## UsbChargeCommand (path = global USB_CHARGE_PATH) -/

def UsbCharge_read_status (path : String) (st : St) : Bool × St :=
  match file_ops_read_file path st.fs with
  | none => (false, st)
  | some value =>
    (true, emit ("USB charge: " ++ (if value = "1" then "Enabled" else "Disabled")) st)

def UsbCharge_set_status (path value : String) (st : St) : Bool × St :=
  match normalize_bool_token value with
  | none => (false, st)
  | some normalized_value =>
    match file_ops_write_file path normalized_value st.fs with
    | none => (false, st)
    | some fs2 =>
      (true, emit ("Set USB charge to " ++
        (if normalized_value = "1" then "Enabled" else "Disabled")) { st with fs := fs2 })

def UsbChargeCommand_get_help : String :=
  "  usb-charge read   Read USB charge status\n  usb-charge set <value>  Set USB charge (0/1, on/off, true/false, yes/no)"

def UsbChargeCommand_execute (path : String) (args : List String) (st : St) : Bool × St :=
  match args with
  | _ :: subcommand :: rest =>
    if subcommand = "read" then UsbCharge_read_status path st
    else if subcommand = "set" then
      match rest with
      | [] => (false, st)
      | v :: _ => UsbCharge_set_status path v st
    else (false, st)
  | _ => (false, st)

/-! ## HelpCommand.  The registry is a std::map keyed by command name, so
print_help iterates the handlers in sorted key order: fan, help, kbd, perf,
power, record, start-on-lid-open, usb-charge. -/

def HelpCommand_get_help : String :=
  "  help          Show this help message"

def print_help_output : List String :=
  ["Usage: samsung-cli <command> [<args>]\nCLI tool to control Samsung Galaxy Book features.\n\nCommands:\n",
   FanCommand_get_help ++ "\n",
   HelpCommand_get_help ++ "\n",
   KeyboardCommand_get_help ++ "\n",
   PerformanceCommand_get_help ++ "\n",
   PowerCommand_get_help ++ "\n",
   RecordingCommand_get_help ++ "\n",
   StartOnLidOpenCommand_get_help ++ "\n",
   UsbChargeCommand_get_help ++ "\n"]

def HelpCommand_execute (_args : List String) (st : St) : Bool × St :=
  (true, { st with out := st.out ++ print_help_output })

/-! ## main: registry and dispatch.  The three resolved globals are passed in
as parameters (recP, lidP, usbP); argv is the argument list without the
program name, exactly the vector main builds from argv+1. -/

def command_names : List String :=
  ["power", "fan", "perf", "record", "kbd", "start-on-lid-open", "usb-charge", "help"]

def dispatch (recP lidP usbP : String) (cmd : String) :
    Option (List String → St → Bool × St) :=
  if cmd = "power" then some PowerCommand_execute
  else if cmd = "fan" then some FanCommand_execute
  else if cmd = "perf" then some PerformanceCommand_execute
  else if cmd = "record" then some (RecordingCommand_execute recP)
  else if cmd = "kbd" then some KeyboardCommand_execute
  else if cmd = "start-on-lid-open" then some (StartOnLidOpenCommand_execute lidP)
  else if cmd = "usb-charge" then some (UsbChargeCommand_execute usbP)
  else if cmd = "help" then some HelpCommand_execute
  else none

/-- main: with no command, print help and exit 1; with an unknown command,
print help and exit 1; otherwise run the matching handler on the full
argument list and map its boolean result to the exit status. -/
def mainRun (recP lidP usbP : String) (argv : List String) (st : St) : Nat × St :=
  match argv with
  | [] => (1, (HelpCommand_execute [] st).2)
  | cmd :: _ =>
    match dispatch recP lidP usbP cmd with
    | none => (1, (HelpCommand_execute [] st).2)
    | some handler =>
      let r := handler argv st
      (if r.1 then 0 else 1, r.2)

/-! ## Concrete fixtures used by the witness theorems -/

/-- An everything-writable filesystem with no existing files. -/
def stW : St :=
  { fs := { files := fun _ => none, writable := fun _ => true }, out := [] }

/-- A filesystem whose platform-profile choices file holds the usual three
modes; everything writable. -/
def stChoices : St :=
  { fs := { files := fun p =>
              if p = PLATFORM_PROFILE_CHOICES_PATH
              then some "low-power balanced performance" else none,
            writable := fun _ => true },
    out := [] }

/-- Resolver fixture: the udev convenience path is readable. -/
def probeA : ProbeFS :=
  { readable := fun p => p == "/dev/samsung-galaxybook/allow_recording",
    platformDir := none }

/-- Resolver fixture: no udev path, a driver directory with one SAM entry
holding the attribute. -/
def probeB : ProbeFS :=
  { readable := fun p =>
      p == "/sys/bus/platform/drivers/samsung-galaxybook/SAM1234/allow_recording",
    platformDir := some [".", "..", "SAM1234"] }

/-- Resolver fixture: no candidate location exists at all. -/
def probeC : ProbeFS :=
  { readable := fun _ => false, platformDir := some [".", "..", "other"] }

/-- A filesystem with one readable empty file. -/
def fsEmptyFile : FS :=
  { files := fun p => if p = "/x" then some "" else none, writable := fun _ => false }

/-- Claim-side predicate, from the words of the claim alone (not from the
source): the whole string is a decimal numeral, optionally signed, with at
least one digit and nothing else. -/
def claim_numeric_repr (s : String) : Bool :=
  match s.data with
  | '-' :: ds => !ds.isEmpty && ds.all (fun c => c.isDigit)
  | '+' :: ds => !ds.isEmpty && ds.all (fun c => c.isDigit)
  | ds => !ds.isEmpty && ds.all (fun c => c.isDigit)

/-! ## Helper lemmas -/

/-- The decimal printing used by std::to_string round-trips through the
modelled std::stoi for every value the power command can store, and contains
no newline (so getline returns it whole). -/
lemma stoi_repr_roundtrip :
    ∀ v : Fin 101,
      stoi (Nat.repr v.val) = some (v.val : Int) ∧
      firstLine (Nat.repr v.val) = Nat.repr v.val := by
  decide

/-- Int printing of a natural number agrees with Nat printing. -/
lemma toString_intOfNat (n : Nat) : toString (n : Int) = Nat.repr n := rfl

/-- The readdir loop returns the first qualifying SAM entry. -/
lemma scan_driver_dir_first (fs : ProbeFS) (feature : String)
    (pre : List String) (entry : String) (post : List String)
    (hpre : ∀ e ∈ pre, (sam_name_match e && fs.readable (platform_path_of e feature)) = false)
    (hq : (sam_name_match entry && fs.readable (platform_path_of entry feature)) = true) :
    scan_driver_dir fs feature (pre ++ entry :: post) =
      some (platform_path_of entry feature) := by
  induction pre with
  | nil => simp [scan_driver_dir, hq]
  | cons a as ih =>
    have ha := hpre a (by simp)
    simp only [List.cons_append, scan_driver_dir, ha]
    exact ih (fun e he => hpre e (by simp [he]))

/-- The readdir loop finds nothing when no entry qualifies. -/
lemma scan_driver_dir_none (fs : ProbeFS) (feature : String) (entries : List String)
    (h : ∀ e ∈ entries, (sam_name_match e && fs.readable (platform_path_of e feature)) = false) :
    scan_driver_dir fs feature entries = none := by
  induction entries with
  | nil => rfl
  | cons a as ih =>
    have ha := h a (by simp)
    simp only [scan_driver_dir, ha]
    exact ih (fun e he => h e (by simp [he]))

/-! ## Claim theorems -/

/-- C10: the attribute read (file_ops::read_file) succeeds whenever the open
succeeds, returning the first line; on an empty file the failed getline is
ignored and the result is success with the empty string. -/
theorem C10_read_file_success_on_open (path c : String) (fs : FS)
    (h : fs.files path = some c) :
    file_ops_read_file path fs = some (firstLine c) ∧
    (c = "" → file_ops_read_file path fs = some "") := by
  refine ⟨by simp [file_ops_read_file, h], ?_⟩
  intro hc
  subst hc
  simp [file_ops_read_file, h]
  rfl

/-- C10 witness: reading an existing empty file succeeds with the empty
string. -/
theorem C10_witness : file_ops_read_file "/x" fsEmptyFile = some "" :=
  (C10_read_file_success_on_open "/x" "" fsEmptyFile (by decide)).2 rfl

/-- C1: detect_feature_path returns the udev path when it is readable, without
consulting the platform-driver directory (the result is the same for every
possible directory state); otherwise it returns the nested path of the first
directory entry that matches the SAM prefix and has a readable attribute; and
when neither candidate qualifies it returns the fixed ACPI fallback, whose own
readability is never consulted (the readable function is unconstrained at the
fallback path). -/
theorem C1_detect_feature_path_priority (fs : ProbeFS) (feature : String) :
    (fs.readable (udev_path_of feature) = true →
      detect_feature_path fs feature = udev_path_of feature ∧
      ∀ d : Option (List String),
        detect_feature_path { fs with platformDir := d } feature = udev_path_of feature) ∧
    (fs.readable (udev_path_of feature) = false →
      ∀ pre entry post, fs.platformDir = some (pre ++ entry :: post) →
        (∀ e ∈ pre,
          (sam_name_match e && fs.readable (platform_path_of e feature)) = false) →
        (sam_name_match entry && fs.readable (platform_path_of entry feature)) = true →
        detect_feature_path fs feature = platform_path_of entry feature) ∧
    (fs.readable (udev_path_of feature) = false →
      (fs.platformDir = none ∨
        ∃ entries, fs.platformDir = some entries ∧
          ∀ e ∈ entries,
            (sam_name_match e && fs.readable (platform_path_of e feature)) = false) →
      detect_feature_path fs feature = acpi_fallback_of feature) := by
  refine ⟨?_, ?_, ?_⟩
  · intro h
    exact ⟨by simp [detect_feature_path, h], fun d => by simp [detect_feature_path, h]⟩
  · intro h pre entry post hdir hpre hq
    simp only [detect_feature_path, h, Bool.false_eq_true, if_false, hdir]
    rw [scan_driver_dir_first fs feature pre entry post hpre hq]
  · intro h hcase
    rcases hcase with hnone | ⟨entries, hdir, hall⟩
    · simp [detect_feature_path, h, hnone]
    · simp only [detect_feature_path, h, Bool.false_eq_true, if_false, hdir]
      rw [scan_driver_dir_none fs feature entries hall]

/-- C1 witness: the three resolver scenarios at concrete filesystem states:
readable udev path, a SAM entry in the driver directory, and nothing found. -/
theorem C1_witness :
    detect_feature_path probeA "allow_recording" = udev_path_of "allow_recording" ∧
    detect_feature_path probeB "allow_recording" =
      platform_path_of "SAM1234" "allow_recording" ∧
    detect_feature_path probeC "allow_recording" = acpi_fallback_of "allow_recording" := by
  refine ⟨?_, ?_, ?_⟩
  · exact ((C1_detect_feature_path_priority probeA "allow_recording").1 (by decide)).1
  · exact (C1_detect_feature_path_priority probeB "allow_recording").2.1 (by decide)
      [".", ".."] "SAM1234" [] rfl (by decide) (by decide)
  · exact (C1_detect_feature_path_priority probeC "allow_recording").2.2 (by decide)
      (Or.inr ⟨[".", "..", "other"], rfl, by decide⟩)

/-- Off-spelled tokens normalize to "0". -/
lemma normalize_bool_token_off (value : String)
    (h : value = "0" ∨ value = "off" ∨ value = "false" ∨ value = "no") :
    normalize_bool_token value = some "0" := by
  rcases h with h | h | h | h <;> subst h <;> decide

/-- On-spelled tokens normalize to "1". -/
lemma normalize_bool_token_on (value : String)
    (h : value = "1" ∨ value = "on" ∨ value = "true" ∨ value = "yes") :
    normalize_bool_token value = some "1" := by
  rcases h with h | h | h | h <;> subst h <;> decide

/-- Any other token is rejected by the shared normalization chain. -/
lemma normalize_bool_token_none (value : String)
    (h0 : ¬(value = "0" ∨ value = "off" ∨ value = "false" ∨ value = "no"))
    (h1 : ¬(value = "1" ∨ value = "on" ∨ value = "true" ∨ value = "yes")) :
    normalize_bool_token value = none := by
  simp only [not_or] at h0 h1
  simp [normalize_bool_token, h0.1, h0.2.1, h0.2.2.1, h0.2.2.2,
    h1.1, h1.2.1, h1.2.2.1, h1.2.2.2]

/-- C2: for each of the six features with a set operation, a value that fails
the domain validation makes the operation return failure with the whole state
(filesystem included) unchanged: the write is never reached. -/
theorem C2_validation_precedes_write
    (value mode path c : String) (st : St) :
    (stoi value = none → set_power value st = (false, st)) ∧
    (∀ v : Int, stoi value = some v → (v < 0 ∨ v > 100) → set_power value st = (false, st)) ∧
    (st.fs.files PLATFORM_PROFILE_CHOICES_PATH = some c →
      string_find_some (firstLine c) mode = false →
      set_performance_mode mode st = (false, st)) ∧
    (normalize_bool_token value = none → set_recording_status path value st = (false, st)) ∧
    (stoi value = none → set_keyboard_backlight value st = (false, st)) ∧
    (∀ v : Int, stoi value = some v → (v < 0 ∨ v > 3) →
      set_keyboard_backlight value st = (false, st)) ∧
    (normalize_bool_token value = none → StartOnLidOpen_set_status path value st = (false, st)) ∧
    (normalize_bool_token value = none → UsbCharge_set_status path value st = (false, st)) := by
  refine ⟨?_, ?_, ?_, ?_, ?_, ?_, ?_, ?_⟩
  · intro h; simp [set_power, h]
  · intro v hv hr
    rcases hr with hr | hr <;> simp [set_power, hv, hr]
  · intro hc hfind
    simp [set_performance_mode, file_ops_read_file, hc, hfind]
  · intro h; simp [set_recording_status, h]
  · intro h; simp [set_keyboard_backlight, h]
  · intro v hv hr
    rcases hr with hr | hr <;> simp [set_keyboard_backlight, hv, hr]
  · intro h; simp [StartOnLidOpen_set_status, h]
  · intro h; simp [UsbCharge_set_status, h]

/-- C2 witness: each of the six set operations rejects a concrete invalid
value and leaves the state untouched. -/
theorem C2_witness :
    set_power "abc" stW = (false, stW) ∧
    set_power "101" stW = (false, stW) ∧
    set_performance_mode "turbo" stChoices = (false, stChoices) ∧
    set_recording_status "/p" "maybe" stW = (false, stW) ∧
    set_keyboard_backlight "4" stW = (false, stW) ∧
    StartOnLidOpen_set_status "/p" "2" stW = (false, stW) ∧
    UsbCharge_set_status "/p" "enable" stW = (false, stW) := by
  refine ⟨?_, ?_, ?_, ?_, ?_, ?_, ?_⟩
  · exact (C2_validation_precedes_write "abc" "" "" "" stW).1 (by decide)
  · exact (C2_validation_precedes_write "101" "" "" "" stW).2.1 101 (by decide)
      (Or.inr (by decide))
  · exact (C2_validation_precedes_write "" "turbo" ""
      "low-power balanced performance" stChoices).2.2.1 (by decide) (by decide)
  · exact (C2_validation_precedes_write "maybe" "" "/p" "" stW).2.2.2.1 (by decide)
  · exact (C2_validation_precedes_write "4" "" "" "" stW).2.2.2.2.2.1 4 (by decide)
      (Or.inr (by decide))
  · exact (C2_validation_precedes_write "2" "" "/p" "" stW).2.2.2.2.2.2.1 (by decide)
  · exact (C2_validation_precedes_write "enable" "" "/p" "" stW).2.2.2.2.2.2.2 (by decide)

/-- C3: each of the three boolean-like set operations maps every off-spelled
token to the stored string "0", every on-spelled token to the stored string
"1" (when the control path is writable), and rejects every other token
without touching the state. -/
theorem C3_bool_token_normalization (path value : String) (st : St) :
    ((value = "0" ∨ value = "off" ∨ value = "false" ∨ value = "no") →
      st.fs.writable path = true →
      (set_recording_status path value st).1 = true ∧
      (set_recording_status path value st).2.fs.files path = some "0" ∧
      (StartOnLidOpen_set_status path value st).1 = true ∧
      (StartOnLidOpen_set_status path value st).2.fs.files path = some "0" ∧
      (UsbCharge_set_status path value st).1 = true ∧
      (UsbCharge_set_status path value st).2.fs.files path = some "0") ∧
    ((value = "1" ∨ value = "on" ∨ value = "true" ∨ value = "yes") →
      st.fs.writable path = true →
      (set_recording_status path value st).1 = true ∧
      (set_recording_status path value st).2.fs.files path = some "1" ∧
      (StartOnLidOpen_set_status path value st).1 = true ∧
      (StartOnLidOpen_set_status path value st).2.fs.files path = some "1" ∧
      (UsbCharge_set_status path value st).1 = true ∧
      (UsbCharge_set_status path value st).2.fs.files path = some "1") ∧
    (¬(value = "0" ∨ value = "off" ∨ value = "false" ∨ value = "no") →
      ¬(value = "1" ∨ value = "on" ∨ value = "true" ∨ value = "yes") →
      set_recording_status path value st = (false, st) ∧
      StartOnLidOpen_set_status path value st = (false, st) ∧
      UsbCharge_set_status path value st = (false, st)) := by
  refine ⟨?_, ?_, ?_⟩
  · intro htok hw
    have hn := normalize_bool_token_off value htok
    refine ⟨?_, ?_, ?_, ?_, ?_, ?_⟩ <;>
      simp [set_recording_status, StartOnLidOpen_set_status, UsbCharge_set_status,
        hn, file_ops_write_file, hw, fs_write, emit]
  · intro htok hw
    have hn := normalize_bool_token_on value htok
    refine ⟨?_, ?_, ?_, ?_, ?_, ?_⟩ <;>
      simp [set_recording_status, StartOnLidOpen_set_status, UsbCharge_set_status,
        hn, file_ops_write_file, hw, fs_write, emit]
  · intro h0 h1
    have hn := normalize_bool_token_none value h0 h1
    exact ⟨by simp [set_recording_status, hn],
      by simp [StartOnLidOpen_set_status, hn],
      by simp [UsbCharge_set_status, hn]⟩

/-- C3 witness: concrete tokens through each of the three handlers: off is
stored as "0" by record, yes is stored as "1" by start-on-lid-open, and an
unrecognized token is rejected by usb-charge with no write. -/
theorem C3_witness :
    (set_recording_status "/p" "off" stW).1 = true ∧
    (set_recording_status "/p" "off" stW).2.fs.files "/p" = some "0" ∧
    (StartOnLidOpen_set_status "/p" "yes" stW).1 = true ∧
    (StartOnLidOpen_set_status "/p" "yes" stW).2.fs.files "/p" = some "1" ∧
    UsbCharge_set_status "/p" "enable" stW = (false, stW) := by
  have hoff := (C3_bool_token_normalization "/p" "off" stW).1
    (Or.inr (Or.inl rfl)) (by decide)
  have hon := (C3_bool_token_normalization "/p" "yes" stW).2.1
    (Or.inr (Or.inr (Or.inr rfl))) (by decide)
  have hrej := (C3_bool_token_normalization "/p" "enable" stW).2.2
    (by decide) (by decide)
  exact ⟨hoff.1, hoff.2.1, hon.2.2.1, hon.2.2.2.1, hrej.2.2⟩

/-- C4 counterexample: the argument "85%" is not a numeric representation of
an integer, yet power set accepts it (std::stoi parses the leading digit run
and ignores the trailing character) and writes "85" to the backing file.  This
refutes the claim that every non-numeric string is rejected. -/
theorem C4_counterexample :
    claim_numeric_repr "85%" = false ∧
    (set_power "85%" stW).1 = true ∧
    (set_power "85%" stW).2.fs.files POWER_PATH = some "85" := by
  decide

/-- C4 (amended): power set succeeds exactly when stoi-style parsing of the
argument (optional leading whitespace and sign, then a maximal nonempty digit
run, any trailing characters ignored) yields a value v with 0 <= v <= 100 and
the backing file is writable; any argument with no parseable integer, and any
parsed value out of range, is rejected. -/
theorem C4_amended_set_power_iff (s : String) (st : St) :
    (set_power s st).1 = true ↔
      ∃ v : Int, stoi s = some v ∧ 0 ≤ v ∧ v ≤ 100 ∧
        st.fs.writable POWER_PATH = true := by
  constructor
  · intro h
    unfold set_power at h
    cases hs : stoi s with
    | none => rw [hs] at h; simp at h
    | some v =>
      rw [hs] at h
      dsimp only at h
      by_cases hr : v < 0 ∨ v > 100
      · rw [if_pos hr] at h; simp at h
      · rw [if_neg hr] at h
        push_neg at hr
        cases hw : st.fs.writable POWER_PATH with
        | false => simp [file_ops_write_file, hw] at h
        | true => exact ⟨v, rfl, by omega, hr.2, rfl⟩
  · rintro ⟨v, hs, h0, h1, hw⟩
    unfold set_power
    rw [hs]
    dsimp only
    have hr : ¬(v < 0 ∨ v > 100) := by omega
    rw [if_neg hr]
    simp [file_ops_write_file, hw]

/-- C4 (amended) witness: "+99" parses to 99 and is accepted on a writable
filesystem. -/
theorem C4_amended_witness : (set_power "+99" stW).1 = true :=
  (C4_amended_set_power_iff "+99" stW).2 ⟨99, by decide, by decide, by decide, rfl⟩

/-- matchesAt holds exactly when the pattern is an initial segment. -/
lemma matchesAt_iff (p : List Char) : ∀ h : List Char,
    matchesAt p h = true ↔ ∃ r, h = p ++ r := by
  induction p with
  | nil =>
    intro h
    simp [matchesAt]
  | cons a as ih =>
    intro h
    cases h with
    | nil =>
      simp [matchesAt]
    | cons b bs =>
      simp only [matchesAt, Bool.and_eq_true, beq_iff_eq, ih bs, List.cons_append,
        List.cons.injEq]
      constructor
      · rintro ⟨hb, r, hr⟩
        exact ⟨r, hb.symm, hr⟩
      · rintro ⟨r, hb, hr⟩
        exact ⟨hb.symm, r, hr⟩

/-- occursIn holds exactly when the pattern occurs somewhere, i.e. the
std::string::find call does not return npos. -/
lemma occursIn_iff (p : List Char) : ∀ h : List Char,
    occursIn p h = true ↔ ∃ l r, h = l ++ p ++ r := by
  intro h
  induction h with
  | nil =>
    simp only [occursIn, List.isEmpty_iff]
    constructor
    · intro hp
      exact ⟨[], [], by simp [hp]⟩
    · rintro ⟨l, r, hr⟩
      rcases List.append_eq_nil.mp (List.append_eq_nil.mp hr.symm).1 with ⟨-, h2⟩
      exact h2
  | cons b bs ih =>
    simp only [occursIn, Bool.or_eq_true, matchesAt_iff, ih]
    constructor
    · rintro (⟨r, hr⟩ | ⟨l, r, hr⟩)
      · exact ⟨[], r, by simp [hr]⟩
      · exact ⟨b :: l, r, by simp [hr]⟩
    · rintro ⟨l, r, hr⟩
      cases l with
      | nil => exact Or.inl ⟨r, by simpa using hr⟩
      | cons x xs =>
        right
        have hr2 : b :: bs = x :: (xs ++ p ++ r) := by simpa using hr
        exact ⟨xs, r, (List.cons.injEq _ _ _ _ ▸ hr2).2⟩

/-- C5: with the choices file present, perf set succeeds exactly when the
requested mode occurs as a substring of the first line of the choices file and
the subsequent write to the profile file succeeds; when the substring test
fails the operation fails with the whole state (profile file included)
unchanged. -/
theorem C5_perf_set_substring (mode c : String) (st : St)
    (hc : st.fs.files PLATFORM_PROFILE_CHOICES_PATH = some c) :
    ((set_performance_mode mode st).1 = true ↔
      ((∃ l r, (firstLine c).data = l ++ mode.data ++ r) ∧
        st.fs.writable PLATFORM_PROFILE_PATH = true)) ∧
    (string_find_some (firstLine c) mode = false →
      set_performance_mode mode st = (false, st)) := by
  constructor
  · cases hfind : string_find_some (firstLine c) mode with
    | false =>
      simp only [set_performance_mode, file_ops_read_file, hc, hfind]
      have hnot : ∀ l r : List Char, (firstLine c).data ≠ l ++ (mode.data ++ r) := by
        intro l r hcontra
        have hocc := (occursIn_iff mode.data (firstLine c).data).mpr
          ⟨l, r, by rw [hcontra, List.append_assoc]⟩
        rw [string_find_some] at hfind
        simp [hocc] at hfind
      simp [hnot]
    | true =>
      simp only [set_performance_mode, file_ops_read_file, hc, hfind]
      have hocc : ∃ l r, (firstLine c).data = l ++ mode.data ++ r :=
        (occursIn_iff mode.data (firstLine c).data).mp hfind
      cases hw : st.fs.writable PLATFORM_PROFILE_PATH with
      | false => simp [file_ops_write_file, hw, hocc]
      | true =>
        obtain ⟨l, r, hlr⟩ := hocc
        simp only [file_ops_write_file, hw, if_true, emit]
        simp
        exact ⟨l, r, by rw [hlr, List.append_assoc]⟩
  · intro hfind
    simp [set_performance_mode, file_ops_read_file, hc, hfind]

/-- C5 witness: with choices "low-power balanced performance", setting the
mode balanced succeeds and setting the mode turbo fails with the state
unchanged. -/
theorem C5_witness :
    (set_performance_mode "balanced" stChoices).1 = true ∧
    set_performance_mode "turbo" stChoices = (false, stChoices) := by
  constructor
  · exact (C5_perf_set_substring "balanced" "low-power balanced performance"
      stChoices (by decide)).1.mpr
      ⟨⟨"low-power ".data, " performance".data, by decide⟩, rfl⟩
  · exact (C5_perf_set_substring "turbo" "low-power balanced performance"
      stChoices (by decide)).2 (by decide)

/-- A name outside the registry is not dispatched. -/
lemma dispatch_eq_none (recP lidP usbP cmd : String)
    (h : cmd ∉ command_names) :
    dispatch recP lidP usbP cmd = none := by
  simp only [command_names, List.mem_cons, List.mem_singleton, not_or] at h
  obtain ⟨h1, h2, h3, h4, h5, h6, h7, h8⟩ := h
  simp [dispatch, h1, h2, h3, h4, h5, h6, h7, h8]

/-- C6: with no arguments main prints the full help listing and exits 1; with
a first argument matching no registered command it prints the full help
listing and exits 1; with a registered first argument it runs that handler on
the complete argument list (command name at index 0) and the exit status is 0
exactly when the handler returned true. -/
theorem C6_main_dispatch (recP lidP usbP : String) (st : St) (cmd : String)
    (rest : List String) (handler : List String → St → Bool × St) :
    (mainRun recP lidP usbP [] st =
      (1, { st with out := st.out ++ print_help_output })) ∧
    (cmd ∉ command_names →
      mainRun recP lidP usbP (cmd :: rest) st =
        (1, { st with out := st.out ++ print_help_output })) ∧
    (dispatch recP lidP usbP cmd = some handler →
      mainRun recP lidP usbP (cmd :: rest) st =
        (if (handler (cmd :: rest) st).1 then 0 else 1, (handler (cmd :: rest) st).2)) := by
  refine ⟨rfl, ?_, ?_⟩
  · intro h
    simp [mainRun, dispatch_eq_none recP lidP usbP cmd h, HelpCommand_execute]
  · intro h
    simp [mainRun, h]

/-- C6 witness: no arguments, an unknown command, and the registered fan
command, each at a concrete state. -/
theorem C6_witness :
    mainRun "/a" "/b" "/c" [] stW = (1, { stW with out := stW.out ++ print_help_output }) ∧
    mainRun "/a" "/b" "/c" ["bogus"] stW =
      (1, { stW with out := stW.out ++ print_help_output }) ∧
    mainRun "/a" "/b" "/c" ["fan", "read"] stW =
      (if (FanCommand_execute ["fan", "read"] stW).1 then 0 else 1,
        (FanCommand_execute ["fan", "read"] stW).2) := by
  refine ⟨?_, ?_, ?_⟩
  · exact (C6_main_dispatch "/a" "/b" "/c" stW "bogus" [] FanCommand_execute).1
  · exact (C6_main_dispatch "/a" "/b" "/c" stW "bogus" [] FanCommand_execute).2.1
      (by decide)
  · exact (C6_main_dispatch "/a" "/b" "/c" stW "fan" ["read"] FanCommand_execute).2.2 rfl

/-- C7: for any argument parsing to the integer v, kbd set succeeds exactly
when 0 <= v <= 3 and the backlight file write succeeds; any v outside the
range is rejected with the whole state unchanged (boundary values 0 and 3 are
accepted, -1 and 4 rejected: see the witness). -/
theorem C7_kbd_set_range (s : String) (v : Int) (st : St)
    (hp : stoi s = some v) :
    ((set_keyboard_backlight s st).1 = true ↔
      (0 ≤ v ∧ v ≤ 3 ∧ st.fs.writable KBD_BACKLIGHT_PATH = true)) ∧
    ((v < 0 ∨ v > 3) → set_keyboard_backlight s st = (false, st)) := by
  constructor
  · constructor
    · intro h
      unfold set_keyboard_backlight at h
      rw [hp] at h
      dsimp only at h
      by_cases hr : v < 0 ∨ v > 3
      · rw [if_pos hr] at h; simp at h
      · rw [if_neg hr] at h
        push_neg at hr
        cases hw : st.fs.writable KBD_BACKLIGHT_PATH with
        | false => simp [file_ops_write_file, hw] at h
        | true => exact ⟨by omega, hr.2, rfl⟩
    · rintro ⟨h0, h1, hw⟩
      unfold set_keyboard_backlight
      rw [hp]
      dsimp only
      rw [if_neg (by omega : ¬(v < 0 ∨ v > 3))]
      simp [file_ops_write_file, hw]
  · intro hr
    rcases hr with hr | hr <;> simp [set_keyboard_backlight, hp, hr]

/-- C7 witness: the boundary values 0 and 3 are accepted on a writable
filesystem, while -1 and 4 are rejected with no state change. -/
theorem C7_witness :
    (set_keyboard_backlight "0" stW).1 = true ∧
    (set_keyboard_backlight "3" stW).1 = true ∧
    set_keyboard_backlight "-1" stW = (false, stW) ∧
    set_keyboard_backlight "4" stW = (false, stW) := by
  refine ⟨?_, ?_, ?_, ?_⟩
  · exact (C7_kbd_set_range "0" 0 stW (by decide)).1.mpr ⟨by decide, by decide, rfl⟩
  · exact (C7_kbd_set_range "3" 3 stW (by decide)).1.mpr ⟨by decide, by decide, rfl⟩
  · exact (C7_kbd_set_range "-1" (-1) stW (by decide)).2 (Or.inl (by decide))
  · exact (C7_kbd_set_range "4" 4 stW (by decide)).2 (Or.inr (by decide))

/-- C9: whenever power set accepts its argument, the string stored in the
backing file is std::to_string of the parsed integer, not the raw argument:
"085" and "+85" are both stored as "85" (see the witness). -/
theorem C9_canonical_decimal_stored (s : String) (v : Int) (st : St)
    (hp : stoi s = some v) (h0 : 0 ≤ v) (h1 : v ≤ 100)
    (hw : st.fs.writable POWER_PATH = true) :
    (set_power s st).1 = true ∧
    (set_power s st).2.fs.files POWER_PATH = some (toString v) := by
  unfold set_power
  rw [hp]
  dsimp only
  rw [if_neg (by omega : ¬(v < 0 ∨ v > 100))]
  simp [file_ops_write_file, hw, fs_write, emit]

/-- C9 witness: the non-canonical spellings "085" and "+85" are accepted and
both stored as the canonical "85". -/
theorem C9_witness :
    (set_power "085" stW).1 = true ∧
    (set_power "085" stW).2.fs.files POWER_PATH = some "85" ∧
    (set_power "+85" stW).2.fs.files POWER_PATH = some "85" := by
  have h1 := C9_canonical_decimal_stored "085" 85 stW (by decide) (by decide)
    (by decide) rfl
  have h2 := C9_canonical_decimal_stored "+85" 85 stW (by decide) (by decide)
    (by decide) rfl
  exact ⟨h1.1, h1.2.trans (by decide), h2.2.trans (by decide)⟩

/-- C8: for every integer v in [0,100], with the backing file writable,
power set v succeeds and a subsequent power read succeeds and prints the
stored value back with a trailing percent sign. -/
theorem C8_power_set_read_roundtrip (v : Nat) (st : St) (hv : v ≤ 100)
    (hw : st.fs.writable POWER_PATH = true) :
    (set_power (Nat.repr v) st).1 = true ∧
    (read_power (set_power (Nat.repr v) st).2).1 = true ∧
    (read_power (set_power (Nat.repr v) st).2).2.out =
      (set_power (Nat.repr v) st).2.out ++
        ["Current charge threshold: " ++ Nat.repr v ++ "%"] := by
  obtain ⟨hp, hfl⟩ := stoi_repr_roundtrip ⟨v, by omega⟩
  unfold set_power
  rw [hp]
  dsimp only
  rw [if_neg (by omega : ¬((v : Int) < 0 ∨ (v : Int) > 100))]
  simp only [file_ops_write_file, hw, if_true]
  simp only [read_power, file_ops_read_file, fs_write, emit, toString_intOfNat]
  simp [hfl]

/-- C8 witness: setting 85 then reading reports 85 percent. -/
theorem C8_witness :
    (set_power (Nat.repr 85) stW).1 = true ∧
    (read_power (set_power (Nat.repr 85) stW).2).1 = true ∧
    (read_power (set_power (Nat.repr 85) stW).2).2.out =
      (set_power (Nat.repr 85) stW).2.out ++
        ["Current charge threshold: " ++ Nat.repr 85 ++ "%"] :=
  C8_power_set_read_roundtrip 85 stW (by decide) rfl
